import Mathlib

/-!
Verification of the go-ceph-blockdevice core (gcb.go) against its
natural-language specification.

The Go code is shallowly embedded: host utility invocations and the remote
rbd/rados library are modelled as explicit oracles passed to each operation,
and every operation additionally returns the trace of host commands it
invoked, so that properties of the form "operation X never invokes command Y"
become statements about the trace. Mutation of a Go struct through a pointer
receiver is modelled by returning the post-call record. Unsigned 64-bit
arithmetic is modelled on Nat with an explicit reduction modulo 2 ^ 64.
-/

namespace GCB

/-- Constant from gcb.go: DefaultPoolName. -/
def DefaultPoolName : String := "rbd"

/-- Constant from gcb.go: DefaultFileSystemType. -/
def DefaultFileSystemType : String := "xfs"

/-- A host command invocation, recorded in traces. Mirrors the exact external
commands run by gcb.go via RunCommand and exec.LookPath. -/
inductive Cmd where
  | blkid (path : String)
  | lookPath (bin : String)
  | mkfs (bin : String) (path : String)
  | mountCmd (fsType : String) (path : String) (mountPoint : String)
  | unmountCmd (path : String)
  | unmapCmd (path : String)
  | rbdMapCmd (user : String) (pool : String) (image : String)
  deriving DecidableEq

/-- Oracle for the outcomes of host commands. Each field gives the result of
one external invocation: Except.ok is the (already trimmed) stdout, and
Except.error is a failure, as returned by RunCommand or exec.LookPath. -/
structure Host where
  blkidOut : String → Except String String
  lookPathOut : String → Except String String
  mkfsOut : String → String → Except String String
  mountOut : String → String → String → Except String String
  unmountOut : String → Except String String
  unmapOut : String → Except String String
  rbdMapOut : String → String → String → Except String String

/-- The Device struct of gcb.go. -/
structure Device where
  path : String
  isMounted : Bool
  fileSystemType : String
  mountPoint : String
  deriving DecidableEq

/-- Device.GetFileSystemType: runs blkid on the device path. -/
def Device.GetFileSystemType (h : Host) (d : Device) :
    Except String String × List Cmd :=
  (h.blkidOut d.path, [Cmd.blkid d.path])

/-- Device.IsAlreadyFormatted: compares the blkid-detected type with the
declared one; a blkid failure leaves the detected type as the empty string
(the Go code discards the error of GetFileSystemType). -/
def Device.IsAlreadyFormatted (h : Host) (d : Device) : Bool × List Cmd :=
  let r := d.GetFileSystemType h
  let current := match r.1 with
    | Except.ok s => s
    | Except.error _ => ""
  (current == d.fileSystemType, r.2)

/-- Device.Format: locates mkfs.(fileSystemType) and runs it on the path,
wrapping either failure in a Cannot-format message. -/
def Device.Format (h : Host) (d : Device) : Except String Unit × List Cmd :=
  match h.lookPathOut ("mkfs." ++ d.fileSystemType) with
  | Except.error e =>
      (Except.error ("Cannot format device:" ++ d.path ++ ", Error: " ++ e),
       [Cmd.lookPath ("mkfs." ++ d.fileSystemType)])
  | Except.ok mkfsBin =>
      match h.mkfsOut mkfsBin d.path with
      | Except.error e =>
          (Except.error ("Cannot format device:" ++ d.path ++ ", Error: " ++ e),
           [Cmd.lookPath ("mkfs." ++ d.fileSystemType), Cmd.mkfs mkfsBin d.path])
      | Except.ok _ =>
          (Except.ok (),
           [Cmd.lookPath ("mkfs." ++ d.fileSystemType), Cmd.mkfs mkfsBin d.path])

/-- Device.Mount: rejects when already mounted at exactly this mount point;
otherwise formats if not already formatted, then runs the mount command; on
success only the isMounted field is set (the source never assigns
d.mountPoint here). Returns (result, post-state of the receiver, trace). -/
def Device.Mount (h : Host) (d : Device) (mountPoint : String) :
    Except String String × Device × List Cmd :=
  if d.isMounted = true ∧ d.mountPoint = mountPoint then
    (Except.error ("Device: " ++ d.path ++ " is already mounted on path: " ++
      d.mountPoint), d, [])
  else
    let fmtCheck := d.IsAlreadyFormatted h
    let afterFmt : Except String Unit × List Cmd :=
      if fmtCheck.1 then (Except.ok (), fmtCheck.2)
      else
        let f := d.Format h
        (f.1, fmtCheck.2 ++ f.2)
    match afterFmt.1 with
    | Except.error e => (Except.error e, d, afterFmt.2)
    | Except.ok _ =>
      match h.mountOut d.fileSystemType d.path mountPoint with
      | Except.error e =>
          (Except.error e, d,
           afterFmt.2 ++ [Cmd.mountCmd d.fileSystemType d.path mountPoint])
      | Except.ok _ =>
          (Except.ok mountPoint,
           Device.mk d.path true d.fileSystemType d.mountPoint,
           afterFmt.2 ++ [Cmd.mountCmd d.fileSystemType d.path mountPoint])

/-- Device.UnMount: runs the unmount command on the path; never modifies the
record fields. -/
def Device.UnMount (h : Host) (d : Device) : Except String Unit × List Cmd :=
  match h.unmountOut d.path with
  | Except.error e => (Except.error e, [Cmd.unmountCmd d.path])
  | Except.ok _ => (Except.ok (), [Cmd.unmountCmd d.path])

/-- Device.UnMap: if the device is recorded mounted, unmounts first and
aborts on failure; then runs rbd unmap on the path. The source assigns no
field of the receiver, so the post-state is always the input record. -/
def Device.UnMap (h : Host) (d : Device) :
    Except String Unit × Device × List Cmd :=
  if d.isMounted = true then
    let u := d.UnMount h
    match u.1 with
    | Except.error e => (Except.error e, d, u.2)
    | Except.ok _ =>
      match h.unmapOut d.path with
      | Except.error e => (Except.error e, d, u.2 ++ [Cmd.unmapCmd d.path])
      | Except.ok _ => (Except.ok (), d, u.2 ++ [Cmd.unmapCmd d.path])
  else
    match h.unmapOut d.path with
    | Except.error e => (Except.error e, d, [Cmd.unmapCmd d.path])
    | Except.ok _ => (Except.ok (), d, [Cmd.unmapCmd d.path])

/-- The Image struct of gcb.go, with the embedded Connection fields it
actually reads (image.username and image.pool) flattened in, plus the stat
size from the embedded rbd.ImageInfo. -/
structure Image where
  name : String
  size : Nat
  username : String
  pool : String
  deriving DecidableEq

/-- NewDevice: maps the image with rbd map (stdout is the device path),
defaults the filesystem type, builds the record with isMounted = false, then
unconditionally formats, and mounts when a mount point was supplied (setting
isMounted = true again afterwards, as the source does). -/
def NewDevice (h : Host) (image : Image) (fsType0 : String)
    (mountPoint : String) : Except String Device × List Cmd :=
  match h.rbdMapOut image.username image.pool image.name with
  | Except.error e =>
      (Except.error e, [Cmd.rbdMapCmd image.username image.pool image.name])
  | Except.ok device =>
    let fsType := if fsType0 = "" then DefaultFileSystemType else fsType0
    let newDevice := Device.mk device false fsType mountPoint
    let mapTrace := [Cmd.rbdMapCmd image.username image.pool image.name]
    let f := newDevice.Format h
    match f.1 with
    | Except.error e => (Except.error e, mapTrace ++ f.2)
    | Except.ok _ =>
      if mountPoint = "" then (Except.ok newDevice, mapTrace ++ f.2)
      else
        let m := newDevice.Mount h mountPoint
        match m.1 with
        | Except.error e => (Except.error e, mapTrace ++ f.2 ++ m.2.2)
        | Except.ok _ =>
          let dev := m.2.1
          (Except.ok (Device.mk dev.path true dev.fileSystemType dev.mountPoint),
           mapTrace ++ f.2 ++ m.2.2)

/-- Image.MapToDevice: NewDevice with the error wrapped in a
Cannot-create-new-device message. -/
def Image.MapToDevice (h : Host) (i : Image) (fsType : String)
    (mountPoint : String) : Except String Device × List Cmd :=
  let n := NewDevice h i fsType mountPoint
  match n.1 with
  | Except.error e =>
      (Except.error ("Cannot create new device for image: " ++ i.name ++
        ", Error: " ++ e), n.2)
  | Except.ok d => (Except.ok d, n.2)

/-- Helper toMegs of gcb.go: megabytes to bytes in uint64 arithmetic. -/
def toMegs (size : Nat) : Nat := (size * 1024 * 1024) % 2 ^ 64

/-- Model of the remote rbd pool, the external collaborator behind
rbd.GetImage, Image.Open, Image.Stat and rbd.Create (spec section 6). The
association list maps image names to their stored size in bytes; the three
oracle fields inject transient failures of open, stat and create so that the
embedding does not assume the remote always cooperates. -/
structure Remote where
  images : List (String × Nat)
  openFail : String → Option String
  statFail : String → Option String
  createFail : String → Option String

/-- Size of the named image, when it exists remotely. -/
def Remote.lookupSize (r : Remote) (name : String) : Option Nat :=
  r.images.lookup name

/-- Library contract for Image.Open: fails on an injected open failure or
when the image does not exist. -/
def Remote.openImage (r : Remote) (name : String) : Except String Unit :=
  match r.openFail name with
  | some e => Except.error e
  | none =>
    if (r.lookupSize name).isSome then Except.ok ()
    else Except.error ("No such image: " ++ name)

/-- Library contract for Image.Stat: fails on an injected stat failure or
when the image does not exist, otherwise returns the stored size. -/
def Remote.statImage (r : Remote) (name : String) : Except String Nat :=
  match r.statFail name with
  | some e => Except.error e
  | none =>
    match r.lookupSize name with
    | some s => Except.ok s
    | none => Except.error ("No such image: " ++ name)

/-- Library contract for rbd.Create: fails when the image already exists or
on an injected create failure, otherwise records the new image. -/
def Remote.createImage (r : Remote) (name : String) (sizeBytes : Nat) :
    Except String Remote :=
  if (r.lookupSize name).isSome then Except.error ("Image exists: " ++ name)
  else
    match r.createFail name with
    | some e => Except.error e
    | none =>
        Except.ok (Remote.mk ((name, sizeBytes) :: r.images)
          r.openFail r.statFail r.createFail)

/-- The Connection fields read by the image-level operations of gcb.go. -/
structure Connection where
  pool : String
  username : String
  cluster : String
  deriving DecidableEq

/-- NewImage of gcb.go: opens the image, then stats it (wrapping a stat
failure in a Cannot-state message); only a fully opened and stat-ed image is
returned. -/
def NewImage (r : Remote) (c : Connection) (name : String) :
    Except String Image :=
  match r.openImage name with
  | Except.error e => Except.error e
  | Except.ok _ =>
    match r.statImage name with
    | Except.error e =>
        Except.error ("Cannot state image: " ++ name ++ ", Error: " ++ e)
    | Except.ok stat => Except.ok (Image.mk name stat c.username c.pool)

/-- Connection.GetImageByName of gcb.go. The go-ceph rbd.GetImage call only
wraps the name in a handle and never returns nil, so the not-found guard of
the source never fires and the result is that of NewImage. -/
def GetImageByName (r : Remote) (c : Connection) (name : String) :
    Except String Image :=
  NewImage r c name

/-- A remote-store call, recorded in traces of the image-level operations. -/
inductive RCmd where
  | lookup (name : String)
  | create (name : String) (sizeBytes : Nat)
  deriving DecidableEq

/-- Connection.GetOrCreateImage of gcb.go: tries the lookup and discards its
error (the source binds it to the blank identifier); a non-nil image is
returned as-is, otherwise rbd.Create is attempted with toMegs size and its
failure is wrapped in a Cannot-create message; the created image is then
opened via NewImage. Returns (result, post remote state, remote-call trace). -/
def GetOrCreateImage (r : Remote) (c : Connection) (name : String)
    (size : Nat) : Except String Image × Remote × List RCmd :=
  match GetImageByName r c name with
  | Except.ok image => (Except.ok image, r, [RCmd.lookup name])
  | Except.error _ =>
    match r.createImage name (toMegs size) with
    | Except.error e =>
        (Except.error ("Cannot create image:" ++ name ++ " of size:" ++
           toString (toMegs size) ++ " on pool: " ++ c.pool ++
           ", Error: " ++ e),
         r, [RCmd.lookup name, RCmd.create name (toMegs size)])
    | Except.ok rNew =>
        match NewImage rNew c name with
        | Except.error e =>
            (Except.error e, rNew,
             [RCmd.lookup name, RCmd.create name (toMegs size)])
        | Except.ok img =>
            (Except.ok img, rNew,
             [RCmd.lookup name, RCmd.create name (toMegs size)])

/-- Liveness state of a Connection: whether the IO context and the underlying
rados connection are still held. -/
structure ConnState where
  contextAlive : Bool
  connAlive : Bool
  deriving DecidableEq

/-- One context destruction, as performed by the body of Shutdown before the
recursive call: the IO context is destroyed when still alive. -/
def destroyContext (c : ConnState) : ConnState :=
  if c.contextAlive = true then ConnState.mk false c.connAlive else c

/-- Connection.Shutdown of gcb.go: destroys the context and then calls
c.Shutdown() again — itself, not the embedded rados connection. The
recursion is modelled with explicit fuel: some means the call returned
within that many recursive steps, none that it did not. -/
def shutdownRun : Nat → ConnState → Option ConnState
  | 0, _ => none
  | Nat.succ fuel, c => shutdownRun fuel (destroyContext c)

/-- Membership test for the character class of the discovery regular
expression: the bracket expression in the source is the set of characters
between the quotes, namely the quote itself, the slash, and the letters of
dev and rbd. -/
def classChars : List Char :=
  [Char.ofNat 39, Char.ofNat 47, Char.ofNat 100, Char.ofNat 101,
   Char.ofNat 118, Char.ofNat 114, Char.ofNat 98]

/-- Unanchored match of the discovery pattern (one or more digits, anything,
one or more class characters) against a line: equivalently, some digit is
followed, strictly later in the line, by some class character. -/
def matchesRow : List Char → Bool
  | [] => false
  | c :: rest =>
      if c.isDigit then rest.any (fun x => classChars.contains x)
      else matchesRow rest

/-- Splitting on every occurrence of a separator character, keeping empty
fields, exactly as the Split of the Go strings package does. -/
def splitOnChar (sep : Char) : List Char → List (List Char)
  | [] => [[]]
  | c :: rest =>
    let r := splitOnChar sep rest
    if c == sep then [] :: r
    else
      match r with
      | [] => [[c]]
      | w :: ws => (c :: w) :: ws

/-- Processing of one showmapped line: a line matching the pattern is split
on single spaces and fields 5 and 10 (1-indexed) are inserted into the map;
a matching line with fewer fields makes the source panic with an
index-out-of-range, modelled as none. Non-matching lines are skipped. -/
def parseLine (acc : List (String × String)) (line : List Char) :
    Option (List (String × String)) :=
  if matchesRow line then
    let fields := splitOnChar (Char.ofNat 32) line
    match fields.get? 4, fields.get? 9 with
    | some k, some v => some ((String.mk k, String.mk v) :: acc)
    | _, _ => none
  else some acc

/-- Folds parseLine over the newline-separated lines of the showmapped
output. The most recent insertion for a key shadows earlier ones, as Go map
assignment does. -/
def parseShowmapped (output : String) : Option (List (String × String)) :=
  (splitOnChar (Char.ofNat 10) output.data).foldlM parseLine []

/-- Trim of RunCommand: strips leading and trailing spaces and newlines. -/
def trimOutput (s : String) : String :=
  String.mk (((s.data.dropWhile (fun c => c == Char.ofNat 32 ||
    c == Char.ofNat 10)).reverse.dropWhile (fun c => c == Char.ofNat 32 ||
    c == Char.ofNat 10)).reverse)

/-- Connection.GetMappedDevices of gcb.go, taking the raw result of the
showmapped command invocation: a command failure is returned as the error;
otherwise the trimmed output is parsed. The outer none models the parsing
panic escaping the function. -/
def GetMappedDevices (cmd : Except String String) :
    Option (Except String (List (String × String))) :=
  match cmd with
  | Except.error e => some (Except.error e)
  | Except.ok out => (parseShowmapped (trimOutput out)).map Except.ok

/-- Image.IsAlreadyMapped of gcb.go: a discovery failure yields the empty
string, a present name yields its device path, an absent one the empty
string; a parsing panic still escapes. -/
def IsAlreadyMapped (cmd : Except String String) (name : String) :
    Option String :=
  match GetMappedDevices cmd with
  | none => none
  | some (Except.error _) => some ""
  | some (Except.ok devices) =>
    match devices.lookup name with
    | some path => some path
    | none => some ""

def hAll : Host :=
  Host.mk (fun _ => Except.ok "xfs") (fun b => Except.ok b)
    (fun _ _ => Except.ok "") (fun _ _ _ => Except.ok "")
    (fun _ => Except.ok "") (fun _ => Except.ok "")
    (fun _ _ _ => Except.ok "/dev/rbd0")

def hRaw : Host :=
  Host.mk (fun _ => Except.ok "") (fun b => Except.ok b)
    (fun _ _ => Except.ok "") (fun _ _ _ => Except.ok "")
    (fun _ => Except.ok "") (fun _ => Except.ok "")
    (fun _ _ _ => Except.ok "/dev/rbd0")

def hUnmountFail : Host :=
  Host.mk (fun _ => Except.ok "xfs") (fun b => Except.ok b)
    (fun _ _ => Except.ok "") (fun _ _ _ => Except.ok "")
    (fun _ => Except.error "target is busy") (fun _ => Except.ok "")
    (fun _ _ _ => Except.ok "/dev/rbd0")

def hMountFail : Host :=
  Host.mk (fun _ => Except.ok "xfs") (fun b => Except.ok b)
    (fun _ _ => Except.ok "") (fun _ _ _ => Except.error "mount failed")
    (fun _ => Except.ok "") (fun _ => Except.ok "")
    (fun _ _ _ => Except.ok "/dev/rbd0")

def img0 : Image := Image.mk "img" 0 "admin" "rbd"

def c0 : Connection := Connection.mk "rbd" "admin" ""

def rEmpty : Remote := Remote.mk [] (fun _ => none) (fun _ => none) (fun _ => none)

def rBad : Remote :=
  Remote.mk [("img", 42)]
    (fun n => if n = "img" then some "input-output error" else none)
    (fun _ => none) (fun _ => none)

lemma mount_ok_shape (h : Host) (d : Device) (mp s : String)
    (hok : (d.Mount h mp).1 = Except.ok s) :
    (d.Mount h mp).2.1 = Device.mk d.path true d.fileSystemType d.mountPoint ∧
      s = mp := by
  unfold Device.Mount at hok ⊢
  by_cases hc : d.isMounted = true ∧ d.mountPoint = mp
  · simp [hc] at hok
  · simp only [if_neg hc] at hok ⊢
    cases hfmt : (d.IsAlreadyFormatted h).1 <;> simp only [hfmt] at hok ⊢
    · cases hfor : (d.Format h).1 <;> simp only [hfor] at hok ⊢
      · simp at hok
      · cases hm : h.mountOut d.fileSystemType d.path mp <;>
          simp only [hm] at hok ⊢
        · simp at hok
        · exact ⟨rfl, (Except.ok.injEq _ _ ▸ hok.symm)⟩
    · cases hm : h.mountOut d.fileSystemType d.path mp <;>
        simp only [hm] at hok ⊢
      · simp at hok
      · exact ⟨rfl, (Except.ok.injEq _ _ ▸ hok.symm)⟩

lemma mount_err_state (h : Host) (d : Device) (mp e : String)
    (he : (d.Mount h mp).1 = Except.error e) :
    (d.Mount h mp).2.1 = d := by
  unfold Device.Mount at he ⊢
  by_cases hc : d.isMounted = true ∧ d.mountPoint = mp
  · simp [hc]
  · simp only [if_neg hc] at he ⊢
    cases hfmt : (d.IsAlreadyFormatted h).1 <;> simp only [hfmt] at he ⊢
    · cases hfor : (d.Format h).1 <;> simp only [hfor] at he ⊢
      · rfl
      · cases hm : h.mountOut d.fileSystemType d.path mp <;>
          simp only [hm] at he ⊢
        · rfl
        · simp at he
    · cases hm : h.mountOut d.fileSystemType d.path mp <;>
        simp only [hm] at he ⊢
      · rfl
      · simp at he

lemma mount_already (h : Host) (d : Device) (mp : String)
    (h1 : d.isMounted = true) (h2 : d.mountPoint = mp) :
    d.Mount h mp =
      (Except.error ("Device: " ++ d.path ++ " is already mounted on path: " ++
        d.mountPoint), d, []) := by
  unfold Device.Mount
  simp [h1, h2]
lemma format_trace_head (h : Host) (d : Device) :
    Cmd.lookPath ("mkfs." ++ d.fileSystemType) ∈ (d.Format h).2 := by
  unfold Device.Format
  cases hl : h.lookPathOut ("mkfs." ++ d.fileSystemType) <;> simp [hl]
  case ok b =>
    cases hm : h.mkfsOut b d.path <;> simp [hm]

lemma getOrCreate_found (r : Remote) (c : Connection) (name : String)
    (size sz : Nat) (hOpen : r.openFail name = none)
    (hStat : r.statFail name = none) (hsz : r.lookupSize name = some sz) :
    GetOrCreateImage r c name size =
      (Except.ok (Image.mk name sz c.username c.pool), r, [RCmd.lookup name]) := by
  unfold GetOrCreateImage GetImageByName NewImage Remote.openImage Remote.statImage
  simp [hOpen, hStat, hsz]

lemma getOrCreate_absent (r : Remote) (c : Connection) (name : String)
    (size : Nat) (hOpen : r.openFail name = none)
    (hStat : r.statFail name = none) (hCreate : r.createFail name = none)
    (habs : r.lookupSize name = none) :
    GetOrCreateImage r c name size =
      (Except.ok (Image.mk name (toMegs size) c.username c.pool),
       Remote.mk ((name, toMegs size) :: r.images) r.openFail r.statFail
         r.createFail,
       [RCmd.lookup name, RCmd.create name (toMegs size)]) := by
  have habs1 : List.lookup name r.images = none := habs
  unfold GetOrCreateImage GetImageByName NewImage Remote.openImage
    Remote.statImage
  simp [hOpen, hStat, hCreate, habs, habs1, Remote.createImage,
    Remote.lookupSize, List.lookup]

lemma getOrCreate_create_attempted (r : Remote) (c : Connection)
    (name : String) (size : Nat) (e : String)
    (he : GetImageByName r c name = Except.error e) :
    RCmd.create name (toMegs size) ∈ (GetOrCreateImage r c name size).2.2 := by
  unfold GetOrCreateImage
  rw [he]
  cases hcr : r.createImage name (toMegs size) <;> simp [hcr]
  case ok rN =>
    cases hn : NewImage rN c name <;> simp [hn]

lemma getOrCreate_create_error (r : Remote) (c : Connection) (name : String)
    (size : Nat) (e eC : String)
    (he : GetImageByName r c name = Except.error e)
    (hc : r.createImage name (toMegs size) = Except.error eC) :
    (GetOrCreateImage r c name size).1 =
      Except.error ("Cannot create image:" ++ name ++ " of size:" ++
        toString (toMegs size) ++ " on pool: " ++ c.pool ++ ", Error: " ++ eC) := by
  unfold GetOrCreateImage
  rw [he, hc]

lemma getOrCreate_state_absent (r : Remote) (c : Connection) (name : String)
    (size : Nat) (habs : r.lookupSize name = none)
    (hcf : r.createFail name = none) :
    (GetOrCreateImage r c name size).2.1 =
      Remote.mk ((name, toMegs size) :: r.images) r.openFail r.statFail
        r.createFail := by
  have hfail : ∃ e, GetImageByName r c name = Except.error e := by
    unfold GetImageByName NewImage Remote.openImage
    cases ho : r.openFail name
    · simp [habs, ho]
    · simp [ho]
  obtain ⟨e, he⟩ := hfail
  unfold GetOrCreateImage
  rw [he]
  unfold Remote.createImage
  simp only [habs, Option.isSome_none, Bool.false_eq_true, if_false, hcf]
  cases hn : NewImage (Remote.mk ((name, toMegs size) :: r.images) r.openFail
      r.statFail r.createFail) c name <;> simp [hn]
lemma mount_lookPath_not_formatted (h : Host) (d : Device) (mp b : String)
    (hb : Cmd.lookPath b ∈ (d.Mount h mp).2.2) :
    (d.IsAlreadyFormatted h).1 = false := by
  cases hf : (d.IsAlreadyFormatted h).1
  · rfl
  · exfalso
    unfold Device.Mount at hb
    by_cases hc : d.isMounted = true ∧ d.mountPoint = mp
    · simp [hc] at hb
    · simp only [if_neg hc, hf, if_true] at hb
      have h2 : (d.IsAlreadyFormatted h).2 = [Cmd.blkid d.path] := rfl
      cases hm : h.mountOut d.fileSystemType d.path mp <;>
        simp [hm, h2] at hb

lemma newDevice_formats (h : Host) (img : Image) (fs0 mp p : String)
    (hmap : h.rbdMapOut img.username img.pool img.name = Except.ok p) :
    Cmd.lookPath ("mkfs." ++ (if fs0 = "" then DefaultFileSystemType else fs0))
      ∈ (NewDevice h img fs0 mp).2 := by
  unfold NewDevice
  rw [hmap]
  have hf := format_trace_head h (Device.mk p false
    (if fs0 = "" then DefaultFileSystemType else fs0) mp)
  simp only at hf
  cases hfor : ((Device.mk p false
      (if fs0 = "" then DefaultFileSystemType else fs0) mp).Format h).1 <;>
    simp only [hfor]
  · simp [hf]
  · by_cases hmp : mp = ""
    · subst hmp
      simp [hf]
    · simp only [if_neg hmp]
      cases hm : ((Device.mk p false
          (if fs0 = "" then DefaultFileSystemType else fs0) mp).Mount h mp).1 <;>
        simp [hm, hf]

lemma newDevice_ok_shape (h : Host) (img : Image) (fs0 mp : String)
    (d : Device) (hok : (NewDevice h img fs0 mp).1 = Except.ok d) :
    ∃ p, h.rbdMapOut img.username img.pool img.name = Except.ok p ∧
      d = if mp = "" then
            Device.mk p false (if fs0 = "" then DefaultFileSystemType else fs0) ""
          else
            Device.mk p true (if fs0 = "" then DefaultFileSystemType else fs0) mp := by
  unfold NewDevice at hok
  cases hmap : h.rbdMapOut img.username img.pool img.name <;>
    simp only [hmap] at hok
  · simp at hok
  case ok p =>
    refine ⟨p, rfl, ?_⟩
    cases hfor : ((Device.mk p false
        (if fs0 = "" then DefaultFileSystemType else fs0) mp).Format h).1 <;>
      simp only [hfor] at hok
    · simp at hok
    · by_cases hmp : mp = ""
      · simp only [hmp, if_true] at hok ⊢
        simp at hok
        subst hmp
        exact hok.symm
      · simp only [if_neg hmp] at hok ⊢
        cases hm : ((Device.mk p false
            (if fs0 = "" then DefaultFileSystemType else fs0) mp).Mount h mp).1 <;>
          simp only [hm] at hok
        · simp at hok
        next s =>
          have := mount_ok_shape h (Device.mk p false
            (if fs0 = "" then DefaultFileSystemType else fs0) mp) mp s hm
          simp at hok
          rw [this.1] at hok
          exact hok.symm
lemma unmap_state (h : Host) (d : Device) : (d.UnMap h).2.1 = d := by
  unfold Device.UnMap Device.UnMount
  by_cases hm : d.isMounted = true
  · simp only [if_pos hm]
    cases hu : h.unmountOut d.path
    · simp
    · cases hum : h.unmapOut d.path <;> simp
  · simp only [if_neg hm]
    cases hum : h.unmapOut d.path <;> simp

/-- C1: GetOrCreateImage is idempotent: under a well-behaved remote it looks
up first; a found image is returned as-is with the remote untouched and no
creation; a second call with identical arguments returns a handle to the
same remote image (same name), performs no creation and leaves the remote
state unchanged. -/
theorem GetOrCreateImage_idempotent (r : Remote) (c : Connection)
    (name : String) (size : Nat) (hOpen : r.openFail name = none)
    (hStat : r.statFail name = none) (hCreate : r.createFail name = none) :
    (∃ i1, (GetOrCreateImage r c name size).1 = Except.ok i1 ∧
      i1.name = name) ∧
    (∃ i2, (GetOrCreateImage (GetOrCreateImage r c name size).2.1 c name
      size).1 = Except.ok i2 ∧ i2.name = name) ∧
    (GetOrCreateImage (GetOrCreateImage r c name size).2.1 c name size).2.1 =
      (GetOrCreateImage r c name size).2.1 ∧
    (∀ s, RCmd.create name s ∉
      (GetOrCreateImage (GetOrCreateImage r c name size).2.1 c name
        size).2.2) ∧
    (∀ sz, r.lookupSize name = some sz →
      (GetOrCreateImage r c name size).1 =
        Except.ok (Image.mk name sz c.username c.pool) ∧
      (GetOrCreateImage r c name size).2.1 = r ∧
      ∀ s, RCmd.create name s ∉ (GetOrCreateImage r c name size).2.2) := by
  cases hex : r.lookupSize name with
  | some sz =>
      have h1 := getOrCreate_found r c name size sz hOpen hStat hex
      refine ⟨⟨Image.mk name sz c.username c.pool, by simp [h1], rfl⟩,
        ⟨Image.mk name sz c.username c.pool, by simp [h1], rfl⟩,
        by simp [h1], ?_, ?_⟩
      · intro s
        simp [h1]
      · intro sz2 hsz2
        cases hsz2
        exact ⟨by simp [h1], by simp [h1], fun s => by simp [h1]⟩
  | none =>
      have h1 := getOrCreate_absent r c name size hOpen hStat hCreate hex
      have h2 := getOrCreate_found
        (Remote.mk ((name, toMegs size) :: r.images) r.openFail r.statFail
          r.createFail) c name size (toMegs size) hOpen hStat
        (by simp [Remote.lookupSize, List.lookup])
      refine ⟨⟨Image.mk name (toMegs size) c.username c.pool,
          by simp [h1], rfl⟩,
        ⟨Image.mk name (toMegs size) c.username c.pool,
          by simp [h1, h2], rfl⟩,
        by simp [h1, h2], ?_, ?_⟩
      · intro s
        simp [h1, h2]
      · intro sz2 hsz2
        simp at hsz2
/-- Witness for C1 at a concrete empty remote: the first call creates the
image, the second call finds it. -/
theorem GetOrCreateImage_idempotent_witness :
    (∃ i1, (GetOrCreateImage rEmpty c0 "img" 20).1 = Except.ok i1 ∧
      i1.name = "img") ∧
    (∃ i2, (GetOrCreateImage (GetOrCreateImage rEmpty c0 "img" 20).2.1 c0
      "img" 20).1 = Except.ok i2 ∧ i2.name = "img") ∧
    (GetOrCreateImage (GetOrCreateImage rEmpty c0 "img" 20).2.1 c0 "img"
      20).2.1 = (GetOrCreateImage rEmpty c0 "img" 20).2.1 ∧
    (∀ s, RCmd.create "img" s ∉
      (GetOrCreateImage (GetOrCreateImage rEmpty c0 "img" 20).2.1 c0 "img"
        20).2.2) ∧
    (∀ sz, rEmpty.lookupSize "img" = some sz →
      (GetOrCreateImage rEmpty c0 "img" 20).1 =
        Except.ok (Image.mk "img" sz c0.username c0.pool) ∧
      (GetOrCreateImage rEmpty c0 "img" 20).2.1 = rEmpty ∧
      ∀ s, RCmd.create "img" s ∉ (GetOrCreateImage rEmpty c0 "img" 20).2.2) :=
  GetOrCreateImage_idempotent rEmpty c0 "img" 20 rfl rfl rfl

/-- C2: the Shutdown of the source never terminates: after destroying the
context it calls itself again, so no amount of fuel makes the modelled run
return, and the underlying connection is never released. -/
theorem Shutdown_never_terminates :
    ∀ (fuel : Nat) (c : ConnState), shutdownRun fuel c = none := by
  intro fuel
  induction fuel with
  | zero => intro c; rfl
  | succ n ih => intro c; exact ih (destroyContext c)

/-- C3: UnMap on a mounted device whose unmount fails returns that error,
leaves every field of the device unchanged (still mounted) and never invokes
the rbd unmap command. -/
theorem UnMap_aborts_on_unmount_failure (h : Host) (d : Device) (e : String)
    (hm : d.isMounted = true) (hu : h.unmountOut d.path = Except.error e) :
    (d.UnMap h).1 = Except.error e ∧ (d.UnMap h).2.1 = d ∧
    (d.UnMap h).2.1.isMounted = true ∧
    ∀ p, Cmd.unmapCmd p ∉ (d.UnMap h).2.2 := by
  unfold Device.UnMap Device.UnMount
  simp [hm, hu]

/-- Witness for C3 on a concrete mounted device whose unmount is refused. -/
theorem UnMap_aborts_on_unmount_failure_witness :
    ((Device.mk "/dev/rbd0" true "xfs" "/mnt/foo").UnMap hUnmountFail).1 =
      Except.error "target is busy" ∧
    ((Device.mk "/dev/rbd0" true "xfs" "/mnt/foo").UnMap hUnmountFail).2.1 =
      Device.mk "/dev/rbd0" true "xfs" "/mnt/foo" ∧
    ((Device.mk "/dev/rbd0" true "xfs"
      "/mnt/foo").UnMap hUnmountFail).2.1.isMounted = true ∧
    ∀ p, Cmd.unmapCmd p ∉
      ((Device.mk "/dev/rbd0" true "xfs" "/mnt/foo").UnMap hUnmountFail).2.2 :=
  UnMap_aborts_on_unmount_failure hUnmountFail
    (Device.mk "/dev/rbd0" true "xfs" "/mnt/foo") "target is busy" rfl rfl

/-- C4 counterexample: on a device whose recorded mount point is old, a
successful Mount at new leaves the recorded mount point old, and a second
Mount at new is not rejected but mounts again. -/
theorem Mount_record_cex :
    ((Device.mk "/dev/rbd0" false "xfs" "old").Mount hAll "new").1 =
      Except.ok "new" ∧
    ((Device.mk "/dev/rbd0" false "xfs" "old").Mount hAll
      "new").2.1.mountPoint = "old" ∧
    ("old" : String) ≠ "new" ∧
    (((Device.mk "/dev/rbd0" false "xfs" "old").Mount hAll "new").2.1.Mount
      hAll "new").1 = Except.ok "new" :=
  ⟨rfl, rfl, by decide, rfl⟩

/-- C4 amended: a successful Mount sets the mounted flag but leaves every
other field, including the recorded mount point, unchanged; the
already-mounted rejection fires exactly when the device is mounted and the
requested mount point equals the recorded one, and then changes nothing. -/
theorem Mount_amended (h : Host) (d : Device) (mp s : String) :
    ((d.Mount h mp).1 = Except.ok s →
      (d.Mount h mp).2.1 =
        Device.mk d.path true d.fileSystemType d.mountPoint ∧ s = mp) ∧
    (d.isMounted = true → d.mountPoint = mp →
      (d.Mount h mp).1 = Except.error ("Device: " ++ d.path ++
        " is already mounted on path: " ++ d.mountPoint) ∧
      (d.Mount h mp).2.1 = d) := by
  constructor
  · intro hok
    exact mount_ok_shape h d mp s hok
  · intro h1 h2
    rw [mount_already h d mp h1 h2]
    exact ⟨rfl, rfl⟩

/-- Witness for C4 amended: a fresh mount at the recorded point succeeds and
only flips the flag; repeating it is rejected unchanged. -/
theorem Mount_amended_witness :
    (((Device.mk "/dev/rbd0" false "xfs" "/mnt/foo").Mount hAll
        "/mnt/foo").2.1 = Device.mk "/dev/rbd0" true "xfs" "/mnt/foo" ∧
      ("/mnt/foo" : String) = "/mnt/foo") ∧
    (((Device.mk "/dev/rbd0" true "xfs" "/mnt/foo").Mount hAll
        "/mnt/foo").1 =
      Except.error "Device: /dev/rbd0 is already mounted on path: /mnt/foo" ∧
     ((Device.mk "/dev/rbd0" true "xfs" "/mnt/foo").Mount hAll
        "/mnt/foo").2.1 = Device.mk "/dev/rbd0" true "xfs" "/mnt/foo") :=
  ⟨(Mount_amended hAll (Device.mk "/dev/rbd0" false "xfs" "/mnt/foo")
      "/mnt/foo" "/mnt/foo").1 rfl,
   (Mount_amended hAll (Device.mk "/dev/rbd0" true "xfs" "/mnt/foo")
      "/mnt/foo" "/mnt/foo").2 rfl rfl⟩
/-- C5 counterexample: NewDevice with an empty mount point yields an
unmounted device with empty recorded mount point, and a direct Mount on it
succeeds leaving the device recorded mounted with an empty mount point. -/
theorem mounted_invariant_cex :
    (NewDevice hAll img0 "xfs" "").1 =
      Except.ok (Device.mk "/dev/rbd0" false "xfs" "") ∧
    ((Device.mk "/dev/rbd0" false "xfs" "").Mount hAll "/mnt/foo").1 =
      Except.ok "/mnt/foo" ∧
    ((Device.mk "/dev/rbd0" false "xfs" "").Mount hAll
      "/mnt/foo").2.1.isMounted = true ∧
    ((Device.mk "/dev/rbd0" false "xfs" "").Mount hAll
      "/mnt/foo").2.1.mountPoint = "" :=
  ⟨rfl, rfl, rfl, rfl⟩

/-- C5 amended: a device returned by NewDevice records the constructor mount
point and is marked mounted only when that mount point is non-empty; UnMap
and UnMount never alter the record, and there is a single recorded mount
point; Mount, however, sets the mounted flag without updating the recorded
mount point, so the invariant is kept by Mount only when the requested mount
point equals the recorded one. -/
theorem Device_invariant_amended (h : Host) (img : Image) (fs0 mp : String)
    (d : Device) :
    ((NewDevice h img fs0 mp).1 = Except.ok d →
      d.mountPoint = mp ∧ (d.isMounted = true → mp ≠ "")) ∧
    (∀ mp2 s, (d.Mount h mp2).1 = Except.ok s →
      (d.Mount h mp2).2.1.mountPoint = d.mountPoint ∧
      (d.Mount h mp2).2.1.isMounted = true) ∧
    (d.UnMap h).2.1 = d := by
  refine ⟨?_, ?_, unmap_state h d⟩
  · intro hok
    obtain ⟨p, hmap, hd⟩ := newDevice_ok_shape h img fs0 mp d hok
    by_cases hmp : mp = ""
    · rw [if_pos hmp] at hd
      subst hd
      subst hmp
      exact ⟨rfl, by simp⟩
    · rw [if_neg hmp] at hd
      subst hd
      exact ⟨rfl, fun _ => hmp⟩
  · intro mp2 s hok
    obtain ⟨hshape, hs⟩ := mount_ok_shape h d mp2 s hok
    rw [hshape]
    exact ⟨rfl, rfl⟩

/-- Witness for C5 amended on concrete device, image and host. -/
theorem Device_invariant_amended_witness :
    ((Device.mk "/dev/rbd0" true "xfs" "/mnt/foo").mountPoint = "/mnt/foo" ∧
      ((Device.mk "/dev/rbd0" true "xfs" "/mnt/foo").isMounted = true →
        ("/mnt/foo" : String) ≠ "")) ∧
    (((Device.mk "/dev/rbd0" true "xfs" "/mnt/foo").Mount hAll
        "/mnt/bar").2.1.mountPoint =
      (Device.mk "/dev/rbd0" true "xfs" "/mnt/foo").mountPoint ∧
     ((Device.mk "/dev/rbd0" true "xfs" "/mnt/foo").Mount hAll
        "/mnt/bar").2.1.isMounted = true) ∧
    ((Device.mk "/dev/rbd0" true "xfs" "/mnt/foo").UnMap hAll).2.1 =
      Device.mk "/dev/rbd0" true "xfs" "/mnt/foo" :=
  ⟨(Device_invariant_amended hAll img0 "xfs" "/mnt/foo"
      (Device.mk "/dev/rbd0" true "xfs" "/mnt/foo")).1 rfl,
   (Device_invariant_amended hAll img0 "xfs" "/mnt/foo"
      (Device.mk "/dev/rbd0" true "xfs" "/mnt/foo")).2.1 "/mnt/bar"
      "/mnt/bar" rfl,
   (Device_invariant_amended hAll img0 "xfs" "/mnt/foo"
      (Device.mk "/dev/rbd0" true "xfs" "/mnt/foo")).2.2⟩

/-- C6: discovery parsing evaluated at the failing input: a well-formed row
is parsed into the mapping, but the line with two fields, which still
matches the filter pattern, drives the field indexing out of range and the
function fails instead of skipping the line. -/
theorem GetMappedDevices_panics_on_short_row :
    GetMappedDevices (Except.ok "0 a b c img f g h i /dev/rbd0") =
      some (Except.ok [("img", "/dev/rbd0")]) ∧
    GetMappedDevices (Except.ok "1 b") = none :=
  ⟨rfl, rfl⟩

/-- C7 counterexample: with the detected type already equal to the declared
type, NewDevice still locates and runs the formatter on the freshly mapped
device. -/
theorem NewDevice_always_formats_cex :
    ((Device.mk "/dev/rbd0" false "xfs" "/mnt/foo").IsAlreadyFormatted
      hAll).1 = true ∧
    Cmd.lookPath "mkfs.xfs" ∈ (NewDevice hAll img0 "xfs" "/mnt/foo").2 ∧
    Cmd.mkfs "mkfs.xfs" "/dev/rbd0" ∈
      (NewDevice hAll img0 "xfs" "/mnt/foo").2 := by
  refine ⟨rfl, ?_, ?_⟩ <;> decide

/-- C7 amended: Mount invokes the formatter only when the device is not
already formatted, but NewDevice formats the freshly mapped device
unconditionally whenever the map command succeeds, even when the device
already carries the declared filesystem type. -/
theorem Format_gating_amended (h : Host) (d : Device) (img : Image)
    (fs0 mp mp2 b p : String) :
    (Cmd.lookPath b ∈ (d.Mount h mp2).2.2 →
      (d.IsAlreadyFormatted h).1 = false) ∧
    (h.rbdMapOut img.username img.pool img.name = Except.ok p →
      Cmd.lookPath ("mkfs." ++
        (if fs0 = "" then DefaultFileSystemType else fs0)) ∈
        (NewDevice h img fs0 mp).2) :=
  ⟨fun hb => mount_lookPath_not_formatted h d mp2 b hb,
   fun hmap => newDevice_formats h img fs0 mp p hmap⟩

/-- Witness for C7 amended: an unformatted device mounted on a cooperative
host does format, hence its formatted check is false; and a successful map
always formats. -/
theorem Format_gating_amended_witness :
    ((Device.mk "/dev/rbd0" false "xfs" "x").IsAlreadyFormatted hRaw).1 =
      false ∧
    Cmd.lookPath ("mkfs." ++
      (if ("xfs" : String) = "" then DefaultFileSystemType else "xfs")) ∈
      (NewDevice hAll img0 "xfs" "/mnt/foo").2 :=
  ⟨(Format_gating_amended hRaw (Device.mk "/dev/rbd0" false "xfs" "x") img0
      "xfs" "/mnt/foo" "/mnt/foo" "mkfs.xfs" "/dev/rbd0").1 (by decide),
   (Format_gating_amended hAll (Device.mk "/dev/rbd0" false "xfs" "x") img0
      "xfs" "/mnt/foo" "/mnt/foo" "mkfs.xfs" "/dev/rbd0").2 rfl⟩
/-- C8: when the image is absent remotely and creation does not spuriously
fail, GetOrCreateImage records a remote image whose capacity in bytes is the
caller size in megabytes times 1024 times 1024, in wrapping unsigned 64-bit
arithmetic. -/
theorem GetOrCreateImage_creates_with_size (r : Remote) (c : Connection)
    (name : String) (size : Nat) (habs : r.lookupSize name = none)
    (hcf : r.createFail name = none) :
    ((GetOrCreateImage r c name size).2.1.lookupSize name) =
      some ((size * 1024 * 1024) % 2 ^ 64) := by
  rw [getOrCreate_state_absent r c name size habs hcf]
  simp [Remote.lookupSize, List.lookup, toMegs]

/-- Witness for C8: creating a 20-megabyte image on an empty remote stores
20971520 bytes. -/
theorem GetOrCreateImage_creates_with_size_witness :
    ((GetOrCreateImage rEmpty c0 "foobar" 20).2.1.lookupSize "foobar") =
      some ((20 * 1024 * 1024) % 2 ^ 64) :=
  GetOrCreateImage_creates_with_size rEmpty c0 "foobar" 20 rfl rfl

/-- C9 counterexample: the image exists remotely but its open fails with an
input-output error; GetOrCreateImage discards that lookup failure, attempts
the creation anyway, and reports the creation failure instead of the lookup
failure. -/
theorem lookup_failure_swallowed_cex :
    rBad.lookupSize "img" = some 42 ∧
    GetImageByName rBad c0 "img" = Except.error "input-output error" ∧
    RCmd.create "img" (toMegs 5) ∈ (GetOrCreateImage rBad c0 "img" 5).2.2 ∧
    (GetOrCreateImage rBad c0 "img" 5).1 = Except.error
      "Cannot create image:img of size:5242880 on pool: rbd, Error: Image exists: img" ∧
    ("Cannot create image:img of size:5242880 on pool: rbd, Error: Image exists: img"
      : String) ≠ "input-output error" :=
  ⟨rfl, rfl, by decide, rfl, by decide⟩

/-- C9 amended: every failure of GetOrCreateImage's initial lookup, image
absence and open or stat failures on an existing image alike, is discarded
and treated as a signal to create; the creation attempt is then performed
and its own failure is what is propagated, wrapped with image name, size and
pool; IsAlreadyMapped likewise swallows a discovery command failure and
returns the empty string. -/
theorem GetOrCreate_swallows_lookup_failures (r : Remote) (c : Connection)
    (name : String) (size : Nat) (e eC : String) :
    (GetImageByName r c name = Except.error e →
      RCmd.create name (toMegs size) ∈
        (GetOrCreateImage r c name size).2.2) ∧
    (GetImageByName r c name = Except.error e →
      r.createImage name (toMegs size) = Except.error eC →
      (GetOrCreateImage r c name size).1 =
        Except.error ("Cannot create image:" ++ name ++ " of size:" ++
          toString (toMegs size) ++ " on pool: " ++ c.pool ++
          ", Error: " ++ eC)) ∧
    (∀ eD : String, IsAlreadyMapped (Except.error eD) name = some "") :=
  ⟨fun he => getOrCreate_create_attempted r c name size e he,
   fun he hc => getOrCreate_create_error r c name size e eC he hc,
   fun _ => rfl⟩

/-- Witness for C9 amended at the concrete remote with a failing open on an
existing image. -/
theorem GetOrCreate_swallows_lookup_failures_witness :
    (RCmd.create "img" (toMegs 5) ∈ (GetOrCreateImage rBad c0 "img" 5).2.2) ∧
    ((GetOrCreateImage rBad c0 "img" 5).1 =
      Except.error ("Cannot create image:" ++ "img" ++ " of size:" ++
        toString (toMegs 5) ++ " on pool: " ++ c0.pool ++ ", Error: " ++
        "Image exists: img")) ∧
    IsAlreadyMapped (Except.error "boom") "img" = some "" :=
  ⟨(GetOrCreate_swallows_lookup_failures rBad c0 "img" 5
      "input-output error" "Image exists: img").1 rfl,
   (GetOrCreate_swallows_lookup_failures rBad c0 "img" 5
      "input-output error" "Image exists: img").2.1 rfl rfl,
   (GetOrCreate_swallows_lookup_failures rBad c0 "img" 5
      "input-output error" "Image exists: img").2.2 "boom"⟩

/-- C10: whenever Mount returns an error, the post-state of the device
record equals its prior value in every field. -/
theorem Mount_failure_leaves_device_unchanged (h : Host) (d : Device)
    (mp e : String) (he : (d.Mount h mp).1 = Except.error e) :
    (d.Mount h mp).2.1 = d :=
  mount_err_state h d mp e he

/-- Witness for C10 on a concrete device whose mount command fails. -/
theorem Mount_failure_leaves_device_unchanged_witness :
    ((Device.mk "/dev/rbd0" false "xfs" "").Mount hMountFail
      "/mnt/foo").2.1 = Device.mk "/dev/rbd0" false "xfs" "" :=
  Mount_failure_leaves_device_unchanged hMountFail
    (Device.mk "/dev/rbd0" false "xfs" "") "/mnt/foo" "mount failed" rfl
end GCB
